import Mathlib

/-!
Verification development for the NinjaExa client-side rate limiter
(`scripts/exa_rate_limiter.py`).

Shallow embedding conventions:
* wall-clock instants and durations (Python floats) are modelled as `ℚ`;
* Python `int` counters are modelled as `ℤ` (a persisted file may hold any
  integer, so no nonnegativity is baked in);
* the float power `PENALTY_MULTIPLIER ** x` with a fractional exponent is
  modelled as the real power `Real.rpow`, so penalty delays live in `ℝ`;
* the effect of `_save_state` is made explicit: `check_rate_limit` returns,
  next to its outcome, an `Option RateLimiterState` that is `some s` exactly
  when the Python code reaches its `_save_state(state)` call with `state = s`,
  and `none` when it returns early (the hard-cap paths);
* user-facing message strings are modelled structurally by `RLMessage`,
  keeping the numeric values interpolated into the Python f-strings.
-/

/-- Configuration read from the environment in the Python module
(`RATE_LIMIT_PER_MINUTE`, `RATE_LIMIT_PER_10_MIN`, `RATE_LIMIT_PER_HOUR`,
`RATE_LIMIT_PER_DAY`); the remaining constants are not configurable. -/
structure RLConfig where
  rate_limit_per_minute : ℤ
  rate_limit_per_10_min : ℤ
  rate_limit_per_hour : ℤ
  rate_limit_per_day : ℤ
deriving DecidableEq

/-- The default limits (15/min, 60/10min, 200/hour, 1000/day). -/
def defaultRLConfig : RLConfig :=
  { rate_limit_per_minute := 15
    rate_limit_per_10_min := 60
    rate_limit_per_hour := 200
    rate_limit_per_day := 1000 }

/-- `BASE_PENALTY_SECONDS = 3.0`. -/
def BASE_PENALTY_SECONDS : ℚ := 3

/-- `MAX_PENALTY_SECONDS = 600.0`. -/
def MAX_PENALTY_SECONDS : ℚ := 600

/-- `PENALTY_MULTIPLIER = 2.0`. -/
def PENALTY_MULTIPLIER : ℚ := 2

/-- `PENALTY_DECAY_MINUTES = 10`. -/
def PENALTY_DECAY_MINUTES : ℚ := 10

/-- `BURST_WARNING_THRESHOLD = 1.5`. -/
def BURST_WARNING_THRESHOLD : ℚ := 3 / 2

/-- `BURST_DELAY_THRESHOLD = 2.0`. -/
def BURST_DELAY_THRESHOLD : ℚ := 2

/-- The dataclass `RateLimiterState` with its field-for-field contents. -/
structure RateLimiterState where
  timestamps : List ℚ
  penalty_level : ℤ
  last_violation_time : ℚ
  last_request_time : ℚ
  hourly_count : ℤ
  hourly_reset : ℚ
  daily_count : ℤ
  daily_reset : ℚ
  version : ℤ
deriving DecidableEq

/-- The dataclass defaults: fresh state used when no file exists or the
file fails to parse. -/
def freshState : RateLimiterState :=
  { timestamps := []
    penalty_level := 0
    last_violation_time := 0
    last_request_time := 0
    hourly_count := 0
    hourly_reset := 0
    daily_count := 0
    daily_reset := 0
    version := 1 }

/-- A JSON object parsed from the state file: each key may be absent
(`from_dict` replaces an absent key by the dataclass default). -/
structure PartialDict where
  timestamps : Option (List ℚ)
  penalty_level : Option ℤ
  last_violation_time : Option ℚ
  last_request_time : Option ℚ
  hourly_count : Option ℤ
  hourly_reset : Option ℚ
  daily_count : Option ℤ
  daily_reset : Option ℚ
  version : Option ℤ
deriving DecidableEq

/-- `RateLimiterState.to_dict`: serialise, keeping only the last 500
timestamps (`self.timestamps[-500:]`). -/
def RateLimiterState.to_dict (s : RateLimiterState) : PartialDict :=
  { timestamps := some (s.timestamps.drop (s.timestamps.length - 500))
    penalty_level := some s.penalty_level
    last_violation_time := some s.last_violation_time
    last_request_time := some s.last_request_time
    hourly_count := some s.hourly_count
    hourly_reset := some s.hourly_reset
    daily_count := some s.daily_count
    daily_reset := some s.daily_reset
    version := some s.version }

/-- `RateLimiterState.from_dict`: each field is `data.get(key, default)`. -/
def RateLimiterState.from_dict (d : PartialDict) : RateLimiterState :=
  { timestamps := d.timestamps.getD []
    penalty_level := d.penalty_level.getD 0
    last_violation_time := d.last_violation_time.getD 0
    last_request_time := d.last_request_time.getD 0
    hourly_count := d.hourly_count.getD 0
    hourly_reset := d.hourly_reset.getD 0
    daily_count := d.daily_count.getD 0
    daily_reset := d.daily_reset.getD 0
    version := d.version.getD 1 }

/-- `_count_requests_in_window`: `sum(1 for ts in timestamps if ts > cutoff)`
with `cutoff = now - window_seconds`. -/
def count_requests_in_window (timestamps : List ℚ) (window_seconds now : ℚ) : ℕ :=
  (timestamps.filter (fun ts => decide (now - window_seconds < ts))).length

/-- `_prune_old_timestamps`: keep `ts > now - 3600`. -/
def prune_old_timestamps (timestamps : List ℚ) (now : ℚ) : List ℚ :=
  timestamps.filter (fun ts => decide (now - 3600 < ts))

/-- `_reset_counters_if_needed`: zero each fixed-window counter and advance
its reset marker once `now` has crossed it. -/
def reset_counters_if_needed (s : RateLimiterState) (now : ℚ) : RateLimiterState :=
  let s1 := if s.hourly_reset ≤ now then
    { s with hourly_count := 0, hourly_reset := now + 3600 } else s
  if s1.daily_reset ≤ now then
    { s1 with daily_count := 0, daily_reset := now + 86400 } else s1

/-- The fractional effective penalty level
`state.penalty_level - (now - state.last_violation_time) / (PENALTY_DECAY_MINUTES * 60)`
appearing in `_calculate_current_penalty`. -/
def effective_level (s : RateLimiterState) (now : ℚ) : ℚ :=
  (s.penalty_level : ℚ) - (now - s.last_violation_time) / (PENALTY_DECAY_MINUTES * 60)

/-- `_calculate_current_penalty`: `0` at penalty level `0`, `0` once the
decayed effective level is `≤ 0`, otherwise
`min (BASE * MULTIPLIER ** (effective_level - 1)) MAX` with a real-valued
power (the Python exponent is a float). -/
noncomputable def calculate_current_penalty (s : RateLimiterState) (now : ℚ) : ℝ :=
  if s.penalty_level = 0 then 0
  else if effective_level s now ≤ 0 then 0
  else min ((BASE_PENALTY_SECONDS : ℝ) *
      (PENALTY_MULTIPLIER : ℝ) ^ (((effective_level s now : ℚ) : ℝ) - 1))
    (MAX_PENALTY_SECONDS : ℝ)

/-- Python `int(q)` for the nonnegative/negative rational `q`: truncation
toward zero. -/
def pyTruncOfRat (q : ℚ) : ℤ :=
  if 0 ≤ q then ⌊q⌋ else ⌈q⌉

/-- Structural model of the messages interpolated by `check_rate_limit`,
with the numeric values they embed. -/
inductive RLMessage where
  | blockedHourly (minutes_to_reset : ℤ)
  | blockedDaily (hours_to_reset : ℤ)
  | rateLimited (req_1min req_10min : ℕ) (level : ℤ)
  | warningHighRate (req_1min req_10min : ℕ)
  | warningHighRatePenalized (req_1min req_10min : ℕ)
  | cooldownPenalty
deriving DecidableEq

/-- `true` exactly on the `[BLOCKED] Hourly limit reached` message. -/
def isBlockedHourly : Option RLMessage → Bool
  | some (RLMessage.blockedHourly _) => true
  | _ => false

/-- `true` exactly on the `[RATE LIMITED]` message. -/
def is_rate_limited_msg : Option RLMessage → Bool
  | some (RLMessage.rateLimited _ _ _) => true
  | _ => false

/-- The `(allowed, delay_seconds, message)` triple returned by
`check_rate_limit`. -/
structure CheckOutcome where
  allowed : Bool
  delay : ℝ
  message : Option RLMessage

/-- The state `check_rate_limit` works on after its two normalisation steps
(prune `timestamps`, reset the fixed-window counters): the value of the
Python local `state` once line `_reset_counters_if_needed(state, now)` ran. -/
def pre_state (s : RateLimiterState) (now : ℚ) : RateLimiterState :=
  reset_counters_if_needed
    { s with timestamps := prune_old_timestamps s.timestamps now } now

/-- `max_ratio = max(ratio_1min, ratio_10min)` as computed by
`check_rate_limit` (each ratio guards against a nonpositive limit). -/
def max_load (cfg : RLConfig) (s : RateLimiterState) (now : ℚ) : ℚ :=
  let s2 := pre_state s now
  let r1 : ℚ := if 0 < cfg.rate_limit_per_minute then
    (count_requests_in_window s2.timestamps 60 now : ℚ) / (cfg.rate_limit_per_minute : ℚ)
    else 0
  let r10 : ℚ := if 0 < cfg.rate_limit_per_10_min then
    (count_requests_in_window s2.timestamps 600 now : ℚ) / (cfg.rate_limit_per_10_min : ℚ)
    else 0
  max r1 r10

/-- The state passed to `_save_state` on the non-hard-cap path of
`check_rate_limit`: the normalised state, after the violation branch
(increment `penalty_level` capped at 10, stamp `last_violation_time`) and
after the good-behaviour fast decay
(`not violation and max_ratio < 1.0 and penalty_level > 0` and more than 60
seconds since the last violation: drop one level, floored at 0). -/
def check_saved (cfg : RLConfig) (s : RateLimiterState) (now : ℚ) : RateLimiterState :=
  let s2 := pre_state s now
  let rmax := max_load cfg s now
  let s3 := if BURST_DELAY_THRESHOLD ≤ rmax then
    { s2 with penalty_level := min (s2.penalty_level + 1) 10, last_violation_time := now }
    else s2
  if ¬ BURST_DELAY_THRESHOLD ≤ rmax ∧ rmax < 1 ∧ 0 < s3.penalty_level ∧
      60 < now - s3.last_violation_time then
    { s3 with penalty_level := max 0 (s3.penalty_level - 1) }
  else s3

/-- `check_rate_limit` (rate limiting enabled): the outcome triple together
with the explicit persistence effect — `none` on the two hard-cap early
returns (they run before `_save_state`), `some` of the saved state
otherwise. -/
noncomputable def check_rate_limit (cfg : RLConfig) (s : RateLimiterState) (now : ℚ) :
    CheckOutcome × Option RateLimiterState :=
  let s2 := pre_state s now
  let req_1min := count_requests_in_window s2.timestamps 60 now
  let req_10min := count_requests_in_window s2.timestamps 600 now
  if cfg.rate_limit_per_hour ≤ s2.hourly_count then
    ({ allowed := false, delay := 0,
       message := some (RLMessage.blockedHourly (pyTruncOfRat ((s2.hourly_reset - now) / 60))) },
     none)
  else if cfg.rate_limit_per_day ≤ s2.daily_count then
    ({ allowed := false, delay := 0,
       message := some (RLMessage.blockedDaily (pyTruncOfRat ((s2.daily_reset - now) / 3600))) },
     none)
  else
    let rmax := max_load cfg s now
    let current_penalty := calculate_current_penalty s2 now
    let outcome : CheckOutcome :=
      if BURST_DELAY_THRESHOLD ≤ rmax then
        let new_level := min (s2.penalty_level + 1) 10
        let new_delay : ℚ :=
          min (BASE_PENALTY_SECONDS * PENALTY_MULTIPLIER ^ (new_level - 1)) MAX_PENALTY_SECONDS
        { allowed := true, delay := (new_delay : ℝ),
          message := some (RLMessage.rateLimited req_1min req_10min new_level) }
      else if BURST_WARNING_THRESHOLD ≤ rmax then
        if 0 < current_penalty then
          { allowed := true, delay := current_penalty,
            message := some (RLMessage.warningHighRatePenalized req_1min req_10min) }
        else
          { allowed := true, delay := 0,
            message := some (RLMessage.warningHighRate req_1min req_10min) }
      else if 0 < current_penalty then
        { allowed := true, delay := current_penalty,
          message := some RLMessage.cooldownPenalty }
      else
        { allowed := true, delay := 0, message := none }
    (outcome, some (check_saved cfg s now))

/-- `record_request` (rate limiting enabled): append `now`, prune, reset
the fixed-window counters, bump both counters, stamp `last_request_time`;
the returned state is the one handed to `_save_state`. -/
def record_request (s : RateLimiterState) (now : ℚ) : RateLimiterState :=
  let s1 := { s with timestamps := prune_old_timestamps (s.timestamps ++ [now]) now }
  let s2 := reset_counters_if_needed s1 now
  { s2 with hourly_count := s2.hourly_count + 1
            daily_count := s2.daily_count + 1
            last_request_time := now }

/-- A sequence of `record_request` calls at the given instants. -/
def record_seq (s : RateLimiterState) (ts : List ℚ) : RateLimiterState :=
  ts.foldl record_request s

/-- The Python exceptions relevant to `_load_state`: the tuple
`(json.JSONDecodeError, IOError, KeyError)` is caught; `AttributeError`
(raised by `data.get(...)` when the parsed JSON value is not an object)
is not. -/
inductive PyExn where
  | attributeError
deriving DecidableEq

/-- The possible contents of the state file, at the granularity
`_load_state` distinguishes: absent file, empty file, unreadable file
(`IOError`), malformed JSON (`json.JSONDecodeError`), well-formed JSON that
is not an object (list, string, number, ...), and a JSON object. -/
inductive FileContent where
  | missing
  | empty
  | unreadable
  | malformed
  | jsonNonObject
  | jsonObject (d : PartialDict)
deriving DecidableEq

/-- `_load_state`: a missing file and every caught exception
(`json.JSONDecodeError` — raised for both empty and malformed files —,
`IOError`, `KeyError`) yield the fresh state; a JSON object goes through
`from_dict`; a well-formed non-object JSON value reaches
`data.get("timestamps", [])`, which raises `AttributeError`, an exception
outside the caught tuple, so it escapes to the caller. -/
def load_state : FileContent → Except PyExn RateLimiterState
  | FileContent.missing => Except.ok freshState
  | FileContent.empty => Except.ok freshState
  | FileContent.unreadable => Except.ok freshState
  | FileContent.malformed => Except.ok freshState
  | FileContent.jsonNonObject => Except.error PyExn.attributeError
  | FileContent.jsonObject d => Except.ok (RateLimiterState.from_dict d)

/-- `check_rate_limit` as invoked by a caller, starting from the state
file: load, then check; an uncaught load exception propagates. -/
noncomputable def check_from_file (cfg : RLConfig) (fc : FileContent) (now : ℚ) :
    Except PyExn (CheckOutcome × Option RateLimiterState) := do
  let s ← load_state fc
  pure (check_rate_limit cfg s now)

/-! ### Traces interleaving `record_request` and `check_rate_limit` calls

A trace step either records a completed request at instant `t` or runs a
`check` at instant `t`.  A `check` that ends in a hard-cap refusal skips
`_save_state`, so the state file keeps its previous content: the next call
loads the old state again (`(check ...).2.getD s`). -/

inductive RLEvent where
  | record (t : ℚ)
  | check (t : ℚ)

/-- One trace step: the state the next call will load, and whether this
step was a `check` that returned `allowed=false`. -/
noncomputable def apply_event (cfg : RLConfig) (s : RateLimiterState) :
    RLEvent → RateLimiterState × Bool
  | RLEvent.record t => (record_request s t, true)
  | RLEvent.check t =>
      ((check_rate_limit cfg s t).2.getD s, (check_rate_limit cfg s t).1.allowed)

/-- Run a trace; the boolean is `true` when every `check` in the trace
returned `allowed=true`. -/
noncomputable def run_events (cfg : RLConfig) :
    RateLimiterState → List RLEvent → RateLimiterState × Bool
  | s, [] => (s, true)
  | s, e :: rest =>
      let r := apply_event cfg s e
      let r2 := run_events cfg r.1 rest
      (r2.1, r.2 && r2.2)

/-- The instants of the `record` events of a trace, in order. -/
def rec_times : List RLEvent → List ℚ
  | [] => []
  | RLEvent.record t :: rest => t :: rec_times rest
  | RLEvent.check _ :: rest => rec_times rest

/-- A state whose stored hourly counter already sits at the default hourly
cap, with its reset instant still in the future at instant 0. -/
def exampleCapState : RateLimiterState :=
  { freshState with hourly_count := 200, hourly_reset := 700 }

/-- A fresh state carrying penalty level 3 (last violation at instant 0). -/
def examplePen3 : RateLimiterState :=
  { freshState with penalty_level := 3 }

/-- A fresh state carrying penalty level 4 (last violation at instant 0). -/
def examplePen4 : RateLimiterState :=
  { freshState with penalty_level := 4 }

/-- A fresh state already at the penalty-level cap 10. -/
def examplePen10 : RateLimiterState :=
  { freshState with penalty_level := 10 }

/-! ### Component lemmas for the state-normalisation helpers -/

lemma reset_counters_timestamps (s : RateLimiterState) (now : ℚ) :
    (reset_counters_if_needed s now).timestamps = s.timestamps := by
  simp only [reset_counters_if_needed]
  split_ifs <;> rfl

lemma reset_counters_penalty (s : RateLimiterState) (now : ℚ) :
    (reset_counters_if_needed s now).penalty_level = s.penalty_level := by
  simp only [reset_counters_if_needed]
  split_ifs <;> rfl

lemma reset_counters_lvt (s : RateLimiterState) (now : ℚ) :
    (reset_counters_if_needed s now).last_violation_time = s.last_violation_time := by
  simp only [reset_counters_if_needed]
  split_ifs <;> rfl

lemma reset_counters_lrt (s : RateLimiterState) (now : ℚ) :
    (reset_counters_if_needed s now).last_request_time = s.last_request_time := by
  simp only [reset_counters_if_needed]
  split_ifs <;> rfl

lemma reset_counters_version (s : RateLimiterState) (now : ℚ) :
    (reset_counters_if_needed s now).version = s.version := by
  simp only [reset_counters_if_needed]
  split_ifs <;> rfl

lemma reset_counters_hourly (s : RateLimiterState) (now : ℚ) :
    (reset_counters_if_needed s now).hourly_count
      = if s.hourly_reset ≤ now then 0 else s.hourly_count := by
  simp only [reset_counters_if_needed]
  split_ifs <;> rfl

lemma reset_counters_daily (s : RateLimiterState) (now : ℚ) :
    (reset_counters_if_needed s now).daily_count
      = if s.daily_reset ≤ now then 0 else s.daily_count := by
  simp only [reset_counters_if_needed]
  split_ifs <;> rfl

lemma reset_counters_hourly_reset (s : RateLimiterState) (now : ℚ) :
    (reset_counters_if_needed s now).hourly_reset
      = if s.hourly_reset ≤ now then now + 3600 else s.hourly_reset := by
  simp only [reset_counters_if_needed]
  split_ifs <;> rfl

lemma reset_counters_daily_reset (s : RateLimiterState) (now : ℚ) :
    (reset_counters_if_needed s now).daily_reset
      = if s.daily_reset ≤ now then now + 86400 else s.daily_reset := by
  simp only [reset_counters_if_needed]
  split_ifs <;> rfl

lemma pre_state_timestamps (s : RateLimiterState) (now : ℚ) :
    (pre_state s now).timestamps = prune_old_timestamps s.timestamps now := by
  simp [pre_state, reset_counters_timestamps]

lemma pre_state_penalty (s : RateLimiterState) (now : ℚ) :
    (pre_state s now).penalty_level = s.penalty_level := by
  simp [pre_state, reset_counters_penalty]

lemma pre_state_lvt (s : RateLimiterState) (now : ℚ) :
    (pre_state s now).last_violation_time = s.last_violation_time := by
  simp [pre_state, reset_counters_lvt]

lemma pre_state_hourly (s : RateLimiterState) (now : ℚ) :
    (pre_state s now).hourly_count
      = if s.hourly_reset ≤ now then 0 else s.hourly_count := by
  simp [pre_state, reset_counters_hourly]

lemma pre_state_daily (s : RateLimiterState) (now : ℚ) :
    (pre_state s now).daily_count
      = if s.daily_reset ≤ now then 0 else s.daily_count := by
  simp [pre_state, reset_counters_daily]

lemma pre_state_hourly_reset (s : RateLimiterState) (now : ℚ) :
    (pre_state s now).hourly_reset
      = if s.hourly_reset ≤ now then now + 3600 else s.hourly_reset := by
  simp [pre_state, reset_counters_hourly_reset]

lemma pre_state_hourly_le (s : RateLimiterState) (now : ℚ) (h : 0 ≤ s.hourly_count) :
    0 ≤ (pre_state s now).hourly_count ∧ (pre_state s now).hourly_count ≤ s.hourly_count := by
  rw [pre_state_hourly]
  split_ifs <;> omega

lemma pre_state_daily_le (s : RateLimiterState) (now : ℚ) (h : 0 ≤ s.daily_count) :
    0 ≤ (pre_state s now).daily_count ∧ (pre_state s now).daily_count ≤ s.daily_count := by
  rw [pre_state_daily]
  split_ifs <;> omega

/-! ### Counting lemmas -/

lemma count_requests_append (l : List ℚ) (t w now : ℚ) :
    count_requests_in_window (l ++ [t]) w now
      = count_requests_in_window l w now + (if now - w < t then 1 else 0) := by
  unfold count_requests_in_window
  rw [List.filter_append, List.length_append]
  congr 1
  by_cases h : now - w < t
  · simp [h]
  · simp [h]

lemma count_requests_filter (l : List ℚ) (c w now : ℚ) (h : c ≤ now - w) :
    count_requests_in_window (l.filter (fun ts => decide (c < ts))) w now
      = count_requests_in_window l w now := by
  unfold count_requests_in_window
  rw [List.filter_filter]
  congr 1
  apply List.filter_congr
  intro x _
  by_cases hx : now - w < x
  · have hcx : c < x := lt_of_le_of_lt h hx
    simp [hx, hcx]
  · simp [hx]

lemma count_requests_prune (l : List ℚ) (t now w : ℚ) (ht : t ≤ now) (hw : w ≤ 3600) :
    count_requests_in_window (prune_old_timestamps l t) w now
      = count_requests_in_window l w now := by
  unfold prune_old_timestamps
  apply count_requests_filter
  linarith

/-! ### Component lemmas for `record_request` -/

lemma record_request_timestamps (s : RateLimiterState) (t : ℚ) :
    (record_request s t).timestamps = prune_old_timestamps (s.timestamps ++ [t]) t := by
  simp only [record_request]
  rw [reset_counters_timestamps]

lemma record_request_penalty (s : RateLimiterState) (t : ℚ) :
    (record_request s t).penalty_level = s.penalty_level := by
  simp only [record_request]
  rw [reset_counters_penalty]

lemma record_request_lvt (s : RateLimiterState) (t : ℚ) :
    (record_request s t).last_violation_time = s.last_violation_time := by
  simp only [record_request]
  rw [reset_counters_lvt]

lemma record_request_version (s : RateLimiterState) (t : ℚ) :
    (record_request s t).version = s.version := by
  simp only [record_request]
  rw [reset_counters_version]

lemma record_request_lrt (s : RateLimiterState) (t : ℚ) :
    (record_request s t).last_request_time = t := rfl

lemma record_request_hourly (s : RateLimiterState) (t : ℚ) :
    (record_request s t).hourly_count
      = (if s.hourly_reset ≤ t then 0 else s.hourly_count) + 1 := by
  simp only [record_request]
  rw [reset_counters_hourly]

lemma record_request_daily (s : RateLimiterState) (t : ℚ) :
    (record_request s t).daily_count
      = (if s.daily_reset ≤ t then 0 else s.daily_count) + 1 := by
  simp only [record_request]
  rw [reset_counters_daily]

lemma record_request_count (s : RateLimiterState) (t now : ℚ)
    (h1 : now - 60 < t) (h2 : t ≤ now) :
    count_requests_in_window (record_request s t).timestamps 60 now
      = count_requests_in_window s.timestamps 60 now + 1 := by
  rw [record_request_timestamps,
    count_requests_prune _ _ _ _ h2 (by norm_num), count_requests_append]
  rw [if_pos h1]

/-! ### Lemmas about sequences of `record_request` calls -/

lemma record_seq_cons (s : RateLimiterState) (t : ℚ) (ts : List ℚ) :
    record_seq s (t :: ts) = record_seq (record_request s t) ts := rfl

lemma record_seq_penalty (ts : List ℚ) :
    ∀ s : RateLimiterState, (record_seq s ts).penalty_level = s.penalty_level := by
  induction ts with
  | nil => intro s; rfl
  | cons t ts ih =>
      intro s
      rw [record_seq_cons, ih, record_request_penalty]

lemma record_seq_lvt (ts : List ℚ) :
    ∀ s : RateLimiterState, (record_seq s ts).last_violation_time = s.last_violation_time := by
  induction ts with
  | nil => intro s; rfl
  | cons t ts ih =>
      intro s
      rw [record_seq_cons, ih, record_request_lvt]

lemma record_seq_count (now : ℚ) (ts : List ℚ) :
    ∀ s : RateLimiterState, (∀ t ∈ ts, now - 60 < t ∧ t ≤ now) →
      count_requests_in_window (record_seq s ts).timestamps 60 now
        = count_requests_in_window s.timestamps 60 now + ts.length := by
  induction ts with
  | nil => intro s _; simp [record_seq]
  | cons t ts ih =>
      intro s h
      have ht := h t (List.mem_cons_self t ts)
      rw [record_seq_cons, ih _ (fun x hx => h x (List.mem_cons_of_mem t hx)),
        record_request_count s t now ht.1 ht.2, List.length_cons]
      omega

lemma record_seq_counts_bound (ts : List ℚ) :
    ∀ s : RateLimiterState, 0 ≤ s.hourly_count → 0 ≤ s.daily_count →
      (0 ≤ (record_seq s ts).hourly_count ∧
        (record_seq s ts).hourly_count ≤ s.hourly_count + ts.length) ∧
      (0 ≤ (record_seq s ts).daily_count ∧
        (record_seq s ts).daily_count ≤ s.daily_count + ts.length) := by
  induction ts with
  | nil => intro s hh hd; simp [record_seq]; omega
  | cons t ts ih =>
      intro s hh hd
      have hrh := record_request_hourly s t
      have hrd := record_request_daily s t
      have hh1 : 0 ≤ (record_request s t).hourly_count := by rw [hrh]; split_ifs <;> omega
      have hd1 : 0 ≤ (record_request s t).daily_count := by rw [hrd]; split_ifs <;> omega
      have hh2 : (record_request s t).hourly_count ≤ s.hourly_count + 1 := by
        rw [hrh]; split_ifs <;> omega
      have hd2 : (record_request s t).daily_count ≤ s.daily_count + 1 := by
        rw [hrd]; split_ifs <;> omega
      have := ih (record_request s t) hh1 hd1
      rw [record_seq_cons, List.length_cons]
      constructor
      · exact ⟨this.1.1, by have := this.1.2; push_cast; push_cast at this; omega⟩
      · exact ⟨this.2.1, by have := this.2.2; push_cast; push_cast at this; omega⟩

/-! ### Branch lemmas for `check_rate_limit` -/

lemma check_rate_limit_blocked_hourly (cfg : RLConfig) (s : RateLimiterState) (now : ℚ)
    (h : cfg.rate_limit_per_hour ≤ (pre_state s now).hourly_count) :
    check_rate_limit cfg s now =
      ({ allowed := false, delay := 0,
         message := some (RLMessage.blockedHourly
           (pyTruncOfRat (((pre_state s now).hourly_reset - now) / 60))) }, none) := by
  unfold check_rate_limit
  rw [if_pos h]

lemma check_rate_limit_blocked_daily (cfg : RLConfig) (s : RateLimiterState) (now : ℚ)
    (hh : (pre_state s now).hourly_count < cfg.rate_limit_per_hour)
    (hd : cfg.rate_limit_per_day ≤ (pre_state s now).daily_count) :
    check_rate_limit cfg s now =
      ({ allowed := false, delay := 0,
         message := some (RLMessage.blockedDaily
           (pyTruncOfRat (((pre_state s now).daily_reset - now) / 3600))) }, none) := by
  unfold check_rate_limit
  rw [if_neg (not_le.mpr hh), if_pos hd]

lemma check_rate_limit_ok (cfg : RLConfig) (s : RateLimiterState) (now : ℚ)
    (hh : (pre_state s now).hourly_count < cfg.rate_limit_per_hour)
    (hd : (pre_state s now).daily_count < cfg.rate_limit_per_day) :
    (check_rate_limit cfg s now).1.allowed = true ∧
      (check_rate_limit cfg s now).2 = some (check_saved cfg s now) := by
  unfold check_rate_limit
  rw [if_neg (not_le.mpr hh), if_neg (not_le.mpr hd)]
  dsimp only
  constructor
  · split_ifs <;> rfl
  · rfl

lemma check_rate_limit_allowed_iff (cfg : RLConfig) (s : RateLimiterState) (now : ℚ) :
    (check_rate_limit cfg s now).2.isSome = (check_rate_limit cfg s now).1.allowed := by
  unfold check_rate_limit
  dsimp only
  split_ifs <;> rfl

lemma check_saved_violation (cfg : RLConfig) (s : RateLimiterState) (now : ℚ)
    (hv : BURST_DELAY_THRESHOLD ≤ max_load cfg s now) :
    check_saved cfg s now =
      { pre_state s now with
        penalty_level := min ((pre_state s now).penalty_level + 1) 10
        last_violation_time := now } := by
  unfold check_saved
  dsimp only
  rw [if_pos hv, if_neg]
  intro h
  exact h.1 hv

lemma check_saved_no_violation (cfg : RLConfig) (s : RateLimiterState) (now : ℚ)
    (hv : ¬ BURST_DELAY_THRESHOLD ≤ max_load cfg s now) :
    check_saved cfg s now =
      if max_load cfg s now < 1 ∧ 0 < (pre_state s now).penalty_level ∧
          60 < now - (pre_state s now).last_violation_time then
        { pre_state s now with
          penalty_level := max 0 ((pre_state s now).penalty_level - 1) }
      else pre_state s now := by
  unfold check_saved
  dsimp only
  rw [if_neg hv]
  by_cases hc : max_load cfg s now < 1 ∧ 0 < (pre_state s now).penalty_level ∧
      60 < now - (pre_state s now).last_violation_time
  · rw [if_pos ⟨hv, hc⟩, if_pos hc]
  · rw [if_neg (fun h => hc h.2), if_neg hc]

lemma check_rate_limit_violation (cfg : RLConfig) (s : RateLimiterState) (now : ℚ)
    (hh : (pre_state s now).hourly_count < cfg.rate_limit_per_hour)
    (hd : (pre_state s now).daily_count < cfg.rate_limit_per_day)
    (hv : BURST_DELAY_THRESHOLD ≤ max_load cfg s now) :
    check_rate_limit cfg s now =
      ({ allowed := true
         delay := ((min (BASE_PENALTY_SECONDS *
             PENALTY_MULTIPLIER ^ (min ((pre_state s now).penalty_level + 1) 10 - 1))
           MAX_PENALTY_SECONDS : ℚ) : ℝ)
         message := some (RLMessage.rateLimited
           (count_requests_in_window (pre_state s now).timestamps 60 now)
           (count_requests_in_window (pre_state s now).timestamps 600 now)
           (min ((pre_state s now).penalty_level + 1) 10)) },
       some { pre_state s now with
              penalty_level := min ((pre_state s now).penalty_level + 1) 10
              last_violation_time := now }) := by
  unfold check_rate_limit
  rw [if_neg (not_le.mpr hh), if_neg (not_le.mpr hd)]
  dsimp only
  rw [if_pos hv, check_saved_violation cfg s now hv]

lemma max_load_ge_of_count (cfg : RLConfig) (s : RateLimiterState) (now : ℚ)
    (hL : 0 < cfg.rate_limit_per_minute)
    (hc : BURST_DELAY_THRESHOLD * (cfg.rate_limit_per_minute : ℚ)
      ≤ (count_requests_in_window (pre_state s now).timestamps 60 now : ℚ)) :
    BURST_DELAY_THRESHOLD ≤ max_load cfg s now := by
  unfold max_load
  dsimp only
  refine le_max_iff.mpr (Or.inl ?_)
  rw [if_pos hL, le_div_iff₀ (by exact_mod_cast hL)]
  exact hc

lemma check_saved_hourly (cfg : RLConfig) (s : RateLimiterState) (now : ℚ) :
    (check_saved cfg s now).hourly_count = (pre_state s now).hourly_count := by
  unfold check_saved
  dsimp only
  split_ifs <;> rfl

lemma check_saved_daily (cfg : RLConfig) (s : RateLimiterState) (now : ℚ) :
    (check_saved cfg s now).daily_count = (pre_state s now).daily_count := by
  unfold check_saved
  dsimp only
  split_ifs <;> rfl

lemma run_events_all_allowed (cfg : RLConfig)
    (hcfg_h : cfg.rate_limit_per_hour = 200) (hcfg_d : cfg.rate_limit_per_day = 1000) :
    ∀ (evs : List RLEvent) (s : RateLimiterState),
      0 ≤ s.hourly_count → 0 ≤ s.daily_count →
      s.hourly_count + (rec_times evs).length < 200 →
      s.daily_count + (rec_times evs).length < 1000 →
      (run_events cfg s evs).2 = true := by
  intro evs
  induction evs with
  | nil => intro s _ _ _ _; rfl
  | cons e rest ih =>
      intro s hh0 hd0 hhb hdb
      cases e with
      | record t =>
          have hrh := record_request_hourly s t
          have hrd := record_request_daily s t
          have hh1 : 0 ≤ (record_request s t).hourly_count := by
            rw [hrh]; split_ifs <;> omega
          have hd1 : 0 ≤ (record_request s t).daily_count := by
            rw [hrd]; split_ifs <;> omega
          have hh2 : (record_request s t).hourly_count ≤ s.hourly_count + 1 := by
            rw [hrh]; split_ifs <;> omega
          have hd2 : (record_request s t).daily_count ≤ s.daily_count + 1 := by
            rw [hrd]; split_ifs <;> omega
          have hlen : (rec_times (RLEvent.record t :: rest)).length
              = (rec_times rest).length + 1 := by simp [rec_times]
          show ((run_events cfg (record_request s t) rest).1,
              true && (run_events cfg (record_request s t) rest).2).2 = true
          rw [Bool.true_and]
          exact ih (record_request s t) hh1 hd1 (by omega) (by omega)
      | check t =>
          have hph := pre_state_hourly_le s t hh0
          have hpd := pre_state_daily_le s t hd0
          have hlen : rec_times (RLEvent.check t :: rest) = rec_times rest := by
            simp [rec_times]
          have hhlt : (pre_state s t).hourly_count < cfg.rate_limit_per_hour := by
            rw [hcfg_h]; omega
          have hdlt : (pre_state s t).daily_count < cfg.rate_limit_per_day := by
            rw [hcfg_d]; omega
          have hok := check_rate_limit_ok cfg s t hhlt hdlt
          have hnext : (check_rate_limit cfg s t).2.getD s = check_saved cfg s t := by
            rw [hok.2]; rfl
          have hh1 : 0 ≤ (check_saved cfg s t).hourly_count := by
            rw [check_saved_hourly]; exact hph.1
          have hd1 : 0 ≤ (check_saved cfg s t).daily_count := by
            rw [check_saved_daily]; exact hpd.1
          have hh2 : (check_saved cfg s t).hourly_count ≤ s.hourly_count := by
            rw [check_saved_hourly]; exact hph.2
          have hd2 : (check_saved cfg s t).daily_count ≤ s.daily_count := by
            rw [check_saved_daily]; exact hpd.2
          show ((run_events cfg ((check_rate_limit cfg s t).2.getD s) rest).1,
              (check_rate_limit cfg s t).1.allowed &&
                (run_events cfg ((check_rate_limit cfg s t).2.getD s) rest).2).2 = true
          rw [hok.1, Bool.true_and, hnext]
          rw [hlen] at hhb hdb
          exact ih (check_saved cfg s t) hh1 hd1 (by omega) (by omega)

lemma check_rate_limit_ok_message (cfg : RLConfig) (s : RateLimiterState) (now : ℚ)
    (hh : (pre_state s now).hourly_count < cfg.rate_limit_per_hour)
    (hd : (pre_state s now).daily_count < cfg.rate_limit_per_day) :
    isBlockedHourly (check_rate_limit cfg s now).1.message = false := by
  unfold check_rate_limit
  rw [if_neg (not_le.mpr hh), if_neg (not_le.mpr hd)]
  dsimp only
  split_ifs <;> rfl

lemma check_saved_penalty_bound (cfg : RLConfig) (s : RateLimiterState) (now : ℚ)
    (h0 : 0 ≤ s.penalty_level) (h10 : s.penalty_level ≤ 10) :
    0 ≤ (check_saved cfg s now).penalty_level ∧
      (check_saved cfg s now).penalty_level ≤ 10 := by
  have hp := pre_state_penalty s now
  unfold check_saved
  dsimp only
  split_ifs <;>
    (try simp only [hp, min_def, max_def]) <;>
    first
      | (split_ifs <;> omega)
      | omega

lemma max_load_nil (cfg : RLConfig) (s : RateLimiterState) (now : ℚ)
    (h : s.timestamps = []) : max_load cfg s now = 0 := by
  unfold max_load
  dsimp only
  rw [pre_state_timestamps, h]
  show max (if 0 < cfg.rate_limit_per_minute then
      ((count_requests_in_window [] 60 now : ℕ) : ℚ) / (cfg.rate_limit_per_minute : ℚ) else 0)
    (if 0 < cfg.rate_limit_per_10_min then
      ((count_requests_in_window [] 600 now : ℕ) : ℚ) / (cfg.rate_limit_per_10_min : ℚ) else 0) = 0
  split_ifs <;> simp [count_requests_in_window]

/-! ### Claim theorems -/

/-- C9: serialising any state with `to_dict` and reloading it with
`from_dict` yields the same state in every field, except that the
timestamps sequence is truncated to its last 500 entries (hence has at
most 500 entries). -/
theorem c9_round_trip (s : RateLimiterState) :
    RateLimiterState.from_dict (RateLimiterState.to_dict s)
        = { s with timestamps := s.timestamps.drop (s.timestamps.length - 500) } ∧
      (RateLimiterState.from_dict (RateLimiterState.to_dict s)).timestamps.length ≤ 500 := by
  constructor
  · simp only [RateLimiterState.to_dict, RateLimiterState.from_dict, Option.getD_some]
  · simp only [RateLimiterState.to_dict, RateLimiterState.from_dict, Option.getD_some,
      List.length_drop]
    omega

/-- C10: `record_request` leaves `penalty_level`, `last_violation_time`
and `version` unchanged; it only appends `now` to the pruned timestamps,
applies the reset-if-crossed logic to the hourly/daily counters before
incrementing each by one, and stamps `last_request_time := now`. -/
theorem c10_record_frame (s : RateLimiterState) (now : ℚ) :
    (record_request s now).penalty_level = s.penalty_level ∧
    (record_request s now).last_violation_time = s.last_violation_time ∧
    (record_request s now).version = s.version ∧
    (record_request s now).last_request_time = now ∧
    (record_request s now).timestamps = prune_old_timestamps (s.timestamps ++ [now]) now ∧
    (record_request s now).hourly_count
        = (if s.hourly_reset ≤ now then 0 else s.hourly_count) + 1 ∧
    (record_request s now).daily_count
        = (if s.daily_reset ≤ now then 0 else s.daily_count) + 1 :=
  ⟨record_request_penalty s now, record_request_lvt s now, record_request_version s now,
    record_request_lrt s now, record_request_timestamps s now,
    record_request_hourly s now, record_request_daily s now⟩

/-- C3, counterexample: a `check_rate_limit` call that ends in the hourly
hard-cap refusal returns before `_save_state`, so nothing is persisted
(the persistence effect is `none`), contradicting the claim that every
`check()` call persists the state at its end. -/
theorem c3_counterexample :
    (check_rate_limit defaultRLConfig exampleCapState 0).1.allowed = false ∧
    (check_rate_limit defaultRLConfig exampleCapState 0).2 = none := by
  have h : defaultRLConfig.rate_limit_per_hour ≤ (pre_state exampleCapState 0).hourly_count := by
    rw [pre_state_hourly]
    norm_num [exampleCapState, freshState, defaultRLConfig]
  rw [check_rate_limit_blocked_hourly _ _ _ h]
  exact ⟨rfl, rfl⟩

/-- C3, amended: `check_rate_limit` persists a state exactly when it
returns `allowed = true`; the two hard-cap refusal paths return before
`_save_state` runs and persist nothing (`record_request` always persists
its resulting state). -/
theorem c3_persist_iff_allowed (cfg : RLConfig) (s : RateLimiterState) (now : ℚ) :
    (check_rate_limit cfg s now).2.isSome = (check_rate_limit cfg s now).1.allowed :=
  check_rate_limit_allowed_iff cfg s now

/-- C2: while `now` is still before the stored `hourly_reset`, a state
whose `hourly_count` has reached the hourly limit makes `check_rate_limit`
return `allowed = false`, delay `0` and the blocked-hourly message stating
the minutes until reset (truncated as Python `int` does), persisting
nothing; and at any `check_rate_limit` call with `now ≥ hourly_reset`
(and a positive hourly limit) the hourly counter is reset to `0` — any
state the call persists carries `hourly_count = 0` — and the call is no
longer refused on the hourly cap. -/
theorem c2_hourly_cap (cfg : RLConfig) (s : RateLimiterState) (now : ℚ) :
    (now < s.hourly_reset → cfg.rate_limit_per_hour ≤ s.hourly_count →
      check_rate_limit cfg s now =
        ({ allowed := false, delay := 0,
           message := some (RLMessage.blockedHourly
             (pyTruncOfRat ((s.hourly_reset - now) / 60))) }, none)) ∧
    (s.hourly_reset ≤ now → 0 < cfg.rate_limit_per_hour →
      isBlockedHourly (check_rate_limit cfg s now).1.message = false ∧
      ((check_rate_limit cfg s now).2.getD freshState).hourly_count = 0) := by
  constructor
  · intro h1 h2
    have hp : (pre_state s now).hourly_count = s.hourly_count := by
      rw [pre_state_hourly, if_neg (not_le.mpr h1)]
    have hpr : (pre_state s now).hourly_reset = s.hourly_reset := by
      rw [pre_state_hourly_reset, if_neg (not_le.mpr h1)]
    rw [check_rate_limit_blocked_hourly cfg s now (by rw [hp]; exact h2), hpr]
  · intro h1 h2
    have hp : (pre_state s now).hourly_count = 0 := by
      rw [pre_state_hourly, if_pos h1]
    have hh : (pre_state s now).hourly_count < cfg.rate_limit_per_hour := by
      rw [hp]; exact h2
    by_cases hd : cfg.rate_limit_per_day ≤ (pre_state s now).daily_count
    · rw [check_rate_limit_blocked_daily cfg s now hh hd]
      exact ⟨rfl, rfl⟩
    · refine ⟨check_rate_limit_ok_message cfg s now hh (lt_of_not_le hd), ?_⟩
      rw [(check_rate_limit_ok cfg s now hh (lt_of_not_le hd)).2]
      show (check_saved cfg s now).hourly_count = 0
      rw [check_saved_hourly, hp]

/-- C2 witness: at instant 0 the capped example state (hourly counter 200,
reset instant 700) is refused with the blocked-hourly message and nothing
persisted; at instant 700 the hourly window has been crossed, the call is
no longer hourly-blocked and the persisted state carries a zeroed hourly
counter. -/
theorem c2_hourly_cap_witness :
    ((0 : ℚ) < exampleCapState.hourly_reset) ∧
    (defaultRLConfig.rate_limit_per_hour ≤ exampleCapState.hourly_count) ∧
    check_rate_limit defaultRLConfig exampleCapState 0 =
      ({ allowed := false, delay := 0,
         message := some (RLMessage.blockedHourly
           (pyTruncOfRat ((exampleCapState.hourly_reset - 0) / 60))) }, none) ∧
    (exampleCapState.hourly_reset ≤ (700 : ℚ)) ∧
    isBlockedHourly (check_rate_limit defaultRLConfig exampleCapState 700).1.message = false ∧
    ((check_rate_limit defaultRLConfig exampleCapState 700).2.getD freshState).hourly_count = 0 := by
  have h2 := (c2_hourly_cap defaultRLConfig exampleCapState 700).2 (by decide) (by decide)
  exact ⟨by decide, by decide,
    (c2_hourly_cap defaultRLConfig exampleCapState 0).1 (by decide) (by decide),
    by decide, h2.1, h2.2⟩

/-- C8: starting from any state with `0 ≤ penalty_level ≤ 10`, the state
after a single `check_rate_limit` call (the persisted state, or the
untouched prior state when the call refuses and persists nothing) and the
state after a single `record_request` call still satisfy
`0 ≤ penalty_level ≤ 10`. -/
theorem c8_penalty_level_invariant (cfg : RLConfig) (s : RateLimiterState) (now : ℚ)
    (h0 : 0 ≤ s.penalty_level) (h10 : s.penalty_level ≤ 10) :
    (0 ≤ ((check_rate_limit cfg s now).2.getD s).penalty_level ∧
      ((check_rate_limit cfg s now).2.getD s).penalty_level ≤ 10) ∧
    (0 ≤ (record_request s now).penalty_level ∧
      (record_request s now).penalty_level ≤ 10) := by
  refine ⟨?_, ?_⟩
  · by_cases hh : cfg.rate_limit_per_hour ≤ (pre_state s now).hourly_count
    · rw [check_rate_limit_blocked_hourly cfg s now hh]
      exact ⟨h0, h10⟩
    · by_cases hd : cfg.rate_limit_per_day ≤ (pre_state s now).daily_count
      · rw [check_rate_limit_blocked_daily cfg s now (lt_of_not_le hh) hd]
        exact ⟨h0, h10⟩
      · rw [(check_rate_limit_ok cfg s now (lt_of_not_le hh) (lt_of_not_le hd)).2]
        exact check_saved_penalty_bound cfg s now h0 h10
  · rw [record_request_penalty]
    exact ⟨h0, h10⟩

/-- C8 witness: the invariant instantiated at the example state with
penalty level 3 and instant 100. -/
theorem c8_penalty_level_invariant_witness :
    ((0 : ℤ) ≤ examplePen3.penalty_level ∧ examplePen3.penalty_level ≤ 10) ∧
    ((0 ≤ ((check_rate_limit defaultRLConfig examplePen3 100).2.getD
          examplePen3).penalty_level ∧
        ((check_rate_limit defaultRLConfig examplePen3 100).2.getD
          examplePen3).penalty_level ≤ 10) ∧
      (0 ≤ (record_request examplePen3 100).penalty_level ∧
        (record_request examplePen3 100).penalty_level ≤ 10)) :=
  ⟨⟨by decide, by decide⟩,
    c8_penalty_level_invariant defaultRLConfig examplePen3 100 (by decide) (by decide)⟩

/-- C7, counterexample: at exactly 60 seconds since the last violation
("at least 60 seconds have elapsed" in the claim's sense), with ratio 0,
penalty level 3 and no hard cap in the way, the stored penalty level is
left at 3 instead of being decremented: the code requires strictly more
than 60 seconds (`time_since_violation > 60`). -/
theorem c7_counterexample :
    max_load defaultRLConfig examplePen3 60 < 1 ∧
    0 < examplePen3.penalty_level ∧
    (60 : ℚ) - examplePen3.last_violation_time = 60 ∧
    (check_rate_limit defaultRLConfig examplePen3 60).2.map
        RateLimiterState.penalty_level = some examplePen3.penalty_level ∧
    examplePen3.penalty_level ≠ examplePen3.penalty_level - 1 := by
  have hml : max_load defaultRLConfig examplePen3 60 = 0 :=
    max_load_nil defaultRLConfig examplePen3 60 rfl
  have hh : (pre_state examplePen3 60).hourly_count
      < defaultRLConfig.rate_limit_per_hour := by decide
  have hd : (pre_state examplePen3 60).daily_count
      < defaultRLConfig.rate_limit_per_day := by decide
  have hok := check_rate_limit_ok defaultRLConfig examplePen3 60 hh hd
  refine ⟨by rw [hml]; norm_num, by decide,
    by norm_num [examplePen3, freshState], ?_, by decide⟩
  rw [hok.2, Option.map_some',
    check_saved_no_violation defaultRLConfig examplePen3 60
      (by rw [hml]; norm_num [BURST_DELAY_THRESHOLD]),
    if_neg ?_]
  · rw [pre_state_penalty]
  · intro hcon
    have h3 := hcon.2.2
    rw [pre_state_lvt] at h3
    norm_num [examplePen3, freshState] at h3

/-- C7, amended: in a `check_rate_limit` call that is not hard-capped and
sees `max_ratio` below the violation threshold, the stored penalty level
is decremented by exactly one when `max_ratio < 1`, `penalty_level > 0`
and STRICTLY more than 60 seconds have elapsed since
`last_violation_time`, and is unchanged otherwise. -/
theorem c7_good_behavior_decay (cfg : RLConfig) (s : RateLimiterState) (now : ℚ)
    (hh : (pre_state s now).hourly_count < cfg.rate_limit_per_hour)
    (hd : (pre_state s now).daily_count < cfg.rate_limit_per_day)
    (hv : max_load cfg s now < BURST_DELAY_THRESHOLD) :
    (check_rate_limit cfg s now).2.map RateLimiterState.penalty_level =
      some (if max_load cfg s now < 1 ∧ 0 < s.penalty_level ∧
          60 < now - s.last_violation_time
        then s.penalty_level - 1 else s.penalty_level) := by
  have hok := check_rate_limit_ok cfg s now hh hd
  rw [hok.2, Option.map_some',
    check_saved_no_violation cfg s now (not_le.mpr hv)]
  rw [pre_state_penalty, pre_state_lvt]
  split_ifs with h
  · dsimp only
    rw [max_eq_right (by omega : (0 : ℤ) ≤ s.penalty_level - 1)]
  · rw [pre_state_penalty]

/-- C7 witness: at instant 100 (more than 60 seconds after the violation
at instant 0), the stored penalty level of the example state drops from 3
to 2. -/
theorem c7_good_behavior_decay_witness :
    ((pre_state examplePen3 100).hourly_count < defaultRLConfig.rate_limit_per_hour) ∧
    ((pre_state examplePen3 100).daily_count < defaultRLConfig.rate_limit_per_day) ∧
    (max_load defaultRLConfig examplePen3 100 < BURST_DELAY_THRESHOLD) ∧
    (check_rate_limit defaultRLConfig examplePen3 100).2.map
        RateLimiterState.penalty_level =
      some (if max_load defaultRLConfig examplePen3 100 < 1 ∧
          0 < examplePen3.penalty_level ∧
          60 < (100 : ℚ) - examplePen3.last_violation_time
        then examplePen3.penalty_level - 1 else examplePen3.penalty_level) :=
  ⟨by decide, by decide,
    by rw [max_load_nil defaultRLConfig examplePen3 100 rfl]; norm_num [BURST_DELAY_THRESHOLD],
    c7_good_behavior_decay defaultRLConfig examplePen3 100 (by decide) (by decide)
      (by rw [max_load_nil defaultRLConfig examplePen3 100 rfl]; norm_num [BURST_DELAY_THRESHOLD])⟩

/-- C5: starting from the fresh state under the default configuration, for
any trace of `record_request` calls whose instants are spaced at least one
minute apart and whose total number is below the hourly limit 200, every
`check_rate_limit` call interleaved into or appended to the trace returns
`allowed = true`. -/
theorem c5_spaced_records_never_blocked (evs : List RLEvent)
    (_hspace : List.Chain' (fun a b => a + 60 ≤ b) (rec_times evs))
    (hcount : (rec_times evs).length < 200) :
    (run_events defaultRLConfig freshState evs).2 = true := by
  refine run_events_all_allowed defaultRLConfig rfl rfl evs freshState le_rfl le_rfl ?_ ?_
  · show freshState.hourly_count + ((rec_times evs).length : ℤ) < 200
    simp only [freshState]
    omega
  · show freshState.daily_count + ((rec_times evs).length : ℤ) < 1000
    simp only [freshState]
    omega

/-- C5 witness: two recorded requests one minute apart, each followed by a
check; every check returns `allowed = true`. -/
theorem c5_spaced_records_never_blocked_witness :
    List.Chain' (fun a b => a + 60 ≤ b)
      (rec_times [RLEvent.record 0, RLEvent.check 0, RLEvent.record 60, RLEvent.check 60]) ∧
    (rec_times [RLEvent.record 0, RLEvent.check 0, RLEvent.record 60,
        RLEvent.check 60]).length < 200 ∧
    (run_events defaultRLConfig freshState
        [RLEvent.record 0, RLEvent.check 0, RLEvent.record 60, RLEvent.check 60]).2 = true := by
  have h1 : List.Chain' (fun a b : ℚ => a + 60 ≤ b)
      (rec_times [RLEvent.record 0, RLEvent.check 0, RLEvent.record 60, RLEvent.check 60]) := by
    show List.Chain' (fun a b : ℚ => a + 60 ≤ b) [0, 60]
    norm_num [List.chain'_cons]
  exact ⟨h1, by decide,
    c5_spaced_records_never_blocked _ h1 (by decide)⟩

/-- C6: a missing, empty, unreadable or malformed-JSON state file makes
`check_rate_limit` behave exactly as on the fresh state, without raising;
but a well-formed JSON file whose top-level value is not an object (for
example the file content `[]`) makes the call raise `AttributeError`
(`data.get` on a non-dict), because only `json.JSONDecodeError`, `IOError`
and `KeyError` are caught — contradicting the claim for schema-invalid
files. -/
theorem c6_corrupt_state_handling :
    check_from_file defaultRLConfig FileContent.jsonNonObject 0
        = Except.error PyExn.attributeError ∧
    ∀ now : ℚ,
      check_from_file defaultRLConfig FileContent.missing now
          = Except.ok (check_rate_limit defaultRLConfig freshState now) ∧
      check_from_file defaultRLConfig FileContent.empty now
          = Except.ok (check_rate_limit defaultRLConfig freshState now) ∧
      check_from_file defaultRLConfig FileContent.unreadable now
          = Except.ok (check_rate_limit defaultRLConfig freshState now) ∧
      check_from_file defaultRLConfig FileContent.malformed now
          = Except.ok (check_rate_limit defaultRLConfig freshState now) :=
  ⟨rfl, fun _ => ⟨rfl, rfl, rfl, rfl⟩⟩

/-- C4, counterexample: with penalty level 4 and the last violation at
instant 0, one full decay period later (600 s) the effective level is
`4 - 1 = 3`, not the halved level `4 / 2 = 2`, and the computed delay is
`3 × 2^(3−1) = 12`, not `3 × 2^(4/2−1) = 6`: a decay period subtracts one
from the effective level (halving the delay), it does not halve the level. -/
theorem c4_counterexample :
    effective_level examplePen4 600 = 3 ∧
    (3 : ℚ) ≠ (examplePen4.penalty_level : ℚ) / 2 ∧
    calculate_current_penalty examplePen4 600 = 12 ∧
    calculate_current_penalty examplePen4 600
      ≠ (BASE_PENALTY_SECONDS : ℝ) * (PENALTY_MULTIPLIER : ℝ) ^
          ((((examplePen4.penalty_level : ℚ) / 2 : ℚ) : ℝ) - 1) := by
  have heff : effective_level examplePen4 600 = 3 := by
    norm_num [effective_level, examplePen4, freshState, PENALTY_DECAY_MINUTES]
  have hpen : calculate_current_penalty examplePen4 600 = 12 := by
    unfold calculate_current_penalty
    rw [if_neg (by decide : ¬ examplePen4.penalty_level = 0), heff,
      if_neg (by norm_num : ¬ (3 : ℚ) ≤ 0)]
    have h31 : (((3 : ℚ) : ℝ)) - 1 = ((2 : ℕ) : ℝ) := by norm_num
    rw [h31, Real.rpow_natCast]
    norm_num [BASE_PENALTY_SECONDS, PENALTY_MULTIPLIER, MAX_PENALTY_SECONDS]
  have hrhs : (BASE_PENALTY_SECONDS : ℝ) * (PENALTY_MULTIPLIER : ℝ) ^
      ((((examplePen4.penalty_level : ℚ) / 2 : ℚ) : ℝ) - 1) = 6 := by
    have h21 : ((((examplePen4.penalty_level : ℚ) / 2 : ℚ) : ℝ)) - 1 = 1 := by
      norm_num [examplePen4, freshState]
    rw [h21, Real.rpow_one]
    norm_num [BASE_PENALTY_SECONDS, PENALTY_MULTIPLIER]
  refine ⟨heff, by norm_num [examplePen4, freshState], hpen, ?_⟩
  rw [hpen, hrhs]
  norm_num

/-- C4, amended: with a positive stored penalty level, as long as the
effective level stays positive and the delay stays below the 600 s cap,
waiting one decay period (`PENALTY_DECAY_MINUTES` minutes) subtracts one
from the effective level, which halves the computed delay; and the
computed delay is 0 whenever the decayed effective level has reached 0. -/
theorem c4_penalty_decay (s : RateLimiterState) (now : ℚ)
    (hp : 0 < s.penalty_level)
    (he : 0 < effective_level s (now + PENALTY_DECAY_MINUTES * 60))
    (hcap : (BASE_PENALTY_SECONDS : ℝ) * (PENALTY_MULTIPLIER : ℝ) ^
        (((effective_level s now : ℚ) : ℝ) - 1) ≤ (MAX_PENALTY_SECONDS : ℝ)) :
    calculate_current_penalty s (now + PENALTY_DECAY_MINUTES * 60)
        = calculate_current_penalty s now / 2 ∧
    ∀ t : ℚ, effective_level s t ≤ 0 → calculate_current_penalty s t = 0 := by
  have hpne : s.penalty_level ≠ 0 := by omega
  have heq : effective_level s (now + PENALTY_DECAY_MINUTES * 60)
      = effective_level s now - 1 := by
    unfold effective_level
    norm_num [PENALTY_DECAY_MINUTES]
    ring
  have he0 : 0 < effective_level s now := by
    rw [heq] at he
    linarith
  constructor
  · unfold calculate_current_penalty
    rw [if_neg hpne, if_neg hpne, if_neg (not_le.mpr he), if_neg (not_le.mpr he0), heq]
    push_cast
    have h2pos : (0 : ℝ) < (PENALTY_MULTIPLIER : ℝ) := by norm_num [PENALTY_MULTIPLIER]
    have hsub : (PENALTY_MULTIPLIER : ℝ) ^ (((effective_level s now : ℚ) : ℝ) - 1 - 1)
        = (PENALTY_MULTIPLIER : ℝ) ^ (((effective_level s now : ℚ) : ℝ) - 1)
          / (PENALTY_MULTIPLIER : ℝ) := by
      rw [Real.rpow_sub h2pos, Real.rpow_one]
    rw [hsub]
    have hhalf : (BASE_PENALTY_SECONDS : ℝ) *
        ((PENALTY_MULTIPLIER : ℝ) ^ (((effective_level s now : ℚ) : ℝ) - 1)
          / (PENALTY_MULTIPLIER : ℝ)) ≤ (MAX_PENALTY_SECONDS : ℝ) := by
      have hnn : (0 : ℝ) ≤ (PENALTY_MULTIPLIER : ℝ) ^ (((effective_level s now : ℚ) : ℝ) - 1) :=
        le_of_lt (Real.rpow_pos_of_pos h2pos _)
      rw [BASE_PENALTY_SECONDS, MAX_PENALTY_SECONDS, PENALTY_MULTIPLIER] at hcap ⊢
      push_cast at hcap ⊢
      linarith
    rw [min_eq_left hhalf, min_eq_left hcap]
    rw [PENALTY_MULTIPLIER]
    push_cast
    ring
  · intro t ht
    unfold calculate_current_penalty
    rw [if_neg hpne, if_pos ht]

/-- C4 witness: penalty level 3, violation at instant 0; at `now = 600`
the delay is uncapped and positive, and waiting one further decay period
(to 1200 s) halves it; at 2400 s the effective level is negative and the
delay is 0. -/
theorem c4_penalty_decay_witness :
    (0 < examplePen3.penalty_level) ∧
    (0 < effective_level examplePen3 (600 + PENALTY_DECAY_MINUTES * 60)) ∧
    ((BASE_PENALTY_SECONDS : ℝ) * (PENALTY_MULTIPLIER : ℝ) ^
        (((effective_level examplePen3 600 : ℚ) : ℝ) - 1) ≤ (MAX_PENALTY_SECONDS : ℝ)) ∧
    calculate_current_penalty examplePen3 (600 + PENALTY_DECAY_MINUTES * 60)
        = calculate_current_penalty examplePen3 600 / 2 ∧
    calculate_current_penalty examplePen3 2400 = 0 := by
  have h1 : (0 : ℤ) < examplePen3.penalty_level := by decide
  have heff : effective_level examplePen3 600 = 2 := by
    norm_num [effective_level, examplePen3, freshState, PENALTY_DECAY_MINUTES]
  have he : 0 < effective_level examplePen3 (600 + PENALTY_DECAY_MINUTES * 60) := by
    norm_num [effective_level, examplePen3, freshState, PENALTY_DECAY_MINUTES]
  have hcap : (BASE_PENALTY_SECONDS : ℝ) * (PENALTY_MULTIPLIER : ℝ) ^
      (((effective_level examplePen3 600 : ℚ) : ℝ) - 1) ≤ (MAX_PENALTY_SECONDS : ℝ) := by
    rw [heff]
    have h21 : (((2 : ℚ) : ℝ)) - 1 = 1 := by norm_num
    rw [h21, Real.rpow_one]
    norm_num [BASE_PENALTY_SECONDS, PENALTY_MULTIPLIER, MAX_PENALTY_SECONDS]
  have hthm := c4_penalty_decay examplePen3 600 h1 he hcap
  refine ⟨h1, he, hcap, hthm.1, hthm.2 2400 ?_⟩
  norm_num [effective_level, examplePen3, freshState, PENALTY_DECAY_MINUTES]

/-- C1, amended: for every prior state with `penalty_level < 10`,
nonnegative hourly/daily counters and enough headroom below both hard
caps, issuing at least `ceil(BURST_DELAY_THRESHOLD × limit-per-minute)`
`record_request` calls within the last 60 seconds and then calling
`check_rate_limit` yields `allowed = true`, a positive delay equal to
`min (BASE × MULTIPLIER ^ new_level − 1) MAX` at the incremented level,
the `[RATE LIMITED]` message, and a stored penalty level of exactly the
prior level plus one. -/
theorem c1_burst_violation (cfg : RLConfig) (s0 : RateLimiterState) (ts : List ℚ) (now : ℚ)
    (hL : 0 < cfg.rate_limit_per_minute)
    (hn : ⌈BURST_DELAY_THRESHOLD * (cfg.rate_limit_per_minute : ℚ)⌉ ≤ (ts.length : ℤ))
    (hts : ∀ t ∈ ts, now - 60 < t ∧ t ≤ now)
    (hh0 : 0 ≤ s0.hourly_count) (hd0 : 0 ≤ s0.daily_count)
    (hhb : s0.hourly_count + ts.length < cfg.rate_limit_per_hour)
    (hdb : s0.daily_count + ts.length < cfg.rate_limit_per_day)
    (hp : s0.penalty_level < 10) :
    (check_rate_limit cfg (record_seq s0 ts) now).1.allowed = true ∧
    (0 : ℝ) < (check_rate_limit cfg (record_seq s0 ts) now).1.delay ∧
    (check_rate_limit cfg (record_seq s0 ts) now).1.delay
        = ((min (BASE_PENALTY_SECONDS * PENALTY_MULTIPLIER ^ s0.penalty_level)
            MAX_PENALTY_SECONDS : ℚ) : ℝ) ∧
    (check_rate_limit cfg (record_seq s0 ts) now).2.map RateLimiterState.penalty_level
        = some (s0.penalty_level + 1) ∧
    is_rate_limited_msg (check_rate_limit cfg (record_seq s0 ts) now).1.message = true := by
  have hbounds := record_seq_counts_bound ts s0 hh0 hd0
  have hh : (pre_state (record_seq s0 ts) now).hourly_count < cfg.rate_limit_per_hour := by
    have h1 := (pre_state_hourly_le (record_seq s0 ts) now hbounds.1.1).2
    have h2 := hbounds.1.2
    omega
  have hd : (pre_state (record_seq s0 ts) now).daily_count < cfg.rate_limit_per_day := by
    have h1 := (pre_state_daily_le (record_seq s0 ts) now hbounds.2.1).2
    have h2 := hbounds.2.2
    omega
  have hcnt : count_requests_in_window (pre_state (record_seq s0 ts) now).timestamps 60 now
      = count_requests_in_window s0.timestamps 60 now + ts.length := by
    rw [pre_state_timestamps, count_requests_prune _ _ _ _ le_rfl (by norm_num),
      record_seq_count now ts s0 hts]
  have hge : BURST_DELAY_THRESHOLD * (cfg.rate_limit_per_minute : ℚ)
      ≤ (count_requests_in_window (pre_state (record_seq s0 ts) now).timestamps 60 now : ℚ) := by
    have h2L : BURST_DELAY_THRESHOLD * (cfg.rate_limit_per_minute : ℚ) ≤ (ts.length : ℚ) := by
      have := Int.ceil_le.mp hn
      exact_mod_cast this
    have hc : (ts.length : ℚ)
        ≤ (count_requests_in_window (pre_state (record_seq s0 ts) now).timestamps 60 now : ℚ) := by
      rw [hcnt]
      push_cast
      linarith [Nat.cast_nonneg (α := ℚ) (count_requests_in_window s0.timestamps 60 now)]
    linarith
  have hv := max_load_ge_of_count cfg (record_seq s0 ts) now hL hge
  have hres := check_rate_limit_violation cfg (record_seq s0 ts) now hh hd hv
  have hpen : (pre_state (record_seq s0 ts) now).penalty_level = s0.penalty_level := by
    rw [pre_state_penalty, record_seq_penalty]
  have hmin : min ((pre_state (record_seq s0 ts) now).penalty_level + 1) 10
      = s0.penalty_level + 1 := by
    rw [hpen]
    exact min_eq_left (by omega)
  have hexp : s0.penalty_level + 1 - 1 = s0.penalty_level := by omega
  rw [hres]
  refine ⟨rfl, ?_, ?_, ?_, rfl⟩
  · dsimp only
    rw [hmin, hexp]
    have hq : (0 : ℚ) < min (BASE_PENALTY_SECONDS * PENALTY_MULTIPLIER ^ s0.penalty_level)
        MAX_PENALTY_SECONDS := by
      apply lt_min
      · exact mul_pos (by norm_num [BASE_PENALTY_SECONDS])
          (zpow_pos (by norm_num [PENALTY_MULTIPLIER]) _)
      · norm_num [MAX_PENALTY_SECONDS]
    exact_mod_cast hq
  · dsimp only
    rw [hmin, hexp]
  · dsimp only
    rw [hmin]
    simp only [Option.map_some']

/-- C1 witness: the default concrete scenario — 40 recorded requests
within one second (all at instant 0), then a check at instant 1, starting
from the fresh state: the check is allowed, the message is
`[RATE LIMITED]`, the stored penalty level becomes `0 + 1 = 1` and the
delay is exactly 3 seconds. -/
theorem c1_burst_violation_witness :
    (0 < defaultRLConfig.rate_limit_per_minute) ∧
    (⌈BURST_DELAY_THRESHOLD * (defaultRLConfig.rate_limit_per_minute : ℚ)⌉
      ≤ ((List.replicate 40 (0 : ℚ)).length : ℤ)) ∧
    (∀ t ∈ List.replicate 40 (0 : ℚ), (1 : ℚ) - 60 < t ∧ t ≤ 1) ∧
    (freshState.hourly_count + ((List.replicate 40 (0 : ℚ)).length : ℤ)
      < defaultRLConfig.rate_limit_per_hour) ∧
    (freshState.penalty_level < 10) ∧
    ((check_rate_limit defaultRLConfig
        (record_seq freshState (List.replicate 40 (0 : ℚ))) 1).1.allowed = true ∧
      (0 : ℝ) < (check_rate_limit defaultRLConfig
        (record_seq freshState (List.replicate 40 (0 : ℚ))) 1).1.delay ∧
      (check_rate_limit defaultRLConfig
          (record_seq freshState (List.replicate 40 (0 : ℚ))) 1).1.delay
        = ((min (BASE_PENALTY_SECONDS * PENALTY_MULTIPLIER ^ freshState.penalty_level)
            MAX_PENALTY_SECONDS : ℚ) : ℝ) ∧
      (check_rate_limit defaultRLConfig
          (record_seq freshState (List.replicate 40 (0 : ℚ))) 1).2.map
        RateLimiterState.penalty_level = some (freshState.penalty_level + 1) ∧
      is_rate_limited_msg (check_rate_limit defaultRLConfig
        (record_seq freshState (List.replicate 40 (0 : ℚ))) 1).1.message = true) ∧
    freshState.penalty_level + 1 = 1 ∧
    ((min (BASE_PENALTY_SECONDS * PENALTY_MULTIPLIER ^ freshState.penalty_level)
        MAX_PENALTY_SECONDS : ℚ) : ℝ) = 3 := by
  have hn : ⌈BURST_DELAY_THRESHOLD * (defaultRLConfig.rate_limit_per_minute : ℚ)⌉
      ≤ ((List.replicate 40 (0 : ℚ)).length : ℤ) := by
    norm_num [BURST_DELAY_THRESHOLD, defaultRLConfig, List.length_replicate]
  have hts : ∀ t ∈ List.replicate 40 (0 : ℚ), (1 : ℚ) - 60 < t ∧ t ≤ 1 := by
    intro t ht
    rw [List.eq_of_mem_replicate ht]
    norm_num
  have hhb : freshState.hourly_count + ((List.replicate 40 (0 : ℚ)).length : ℤ)
      < defaultRLConfig.rate_limit_per_hour := by
    simp [freshState, defaultRLConfig]
  have hdb : freshState.daily_count + ((List.replicate 40 (0 : ℚ)).length : ℤ)
      < defaultRLConfig.rate_limit_per_day := by
    simp [freshState, defaultRLConfig]
  have hdelay : ((min (BASE_PENALTY_SECONDS * PENALTY_MULTIPLIER ^ freshState.penalty_level)
      MAX_PENALTY_SECONDS : ℚ) : ℝ) = 3 := by
    have : freshState.penalty_level = 0 := rfl
    rw [this]
    norm_num [BASE_PENALTY_SECONDS, PENALTY_MULTIPLIER, MAX_PENALTY_SECONDS]
  exact ⟨by decide, hn, hts, hhb, by decide,
    c1_burst_violation defaultRLConfig freshState (List.replicate 40 (0 : ℚ)) 1
      (by decide) hn hts (by decide) (by decide) hhb hdb (by decide),
    rfl, hdelay⟩

/-- C1, counterexample: the claim quantifies over every prior state, but
from a prior state already at penalty level 10 the violation leaves the
stored level at 10 (the increment is capped), not at the prior level plus
one: 30 = ceil(2.0 × 15) requests recorded at instant 0, check at
instant 1. -/
theorem c1_counterexample :
    examplePen10.penalty_level = 10 ∧
    (check_rate_limit defaultRLConfig
        (record_seq examplePen10 (List.replicate 30 (0 : ℚ))) 1).2.map
      RateLimiterState.penalty_level = some 10 ∧
    (10 : ℤ) ≠ examplePen10.penalty_level + 1 := by
  have hts : ∀ t ∈ List.replicate 30 (0 : ℚ), (1 : ℚ) - 60 < t ∧ t ≤ 1 := by
    intro t ht
    rw [List.eq_of_mem_replicate ht]
    norm_num
  have hbounds := record_seq_counts_bound (List.replicate 30 (0 : ℚ)) examplePen10
    (by decide) (by decide)
  have hh : (pre_state (record_seq examplePen10 (List.replicate 30 (0 : ℚ))) 1).hourly_count
      < defaultRLConfig.rate_limit_per_hour := by
    have h1 := (pre_state_hourly_le (record_seq examplePen10 (List.replicate 30 (0 : ℚ))) 1
      hbounds.1.1).2
    have h2 := hbounds.1.2
    have hc : examplePen10.hourly_count = 0 := rfl
    have hl : ((List.replicate 30 (0 : ℚ)).length : ℤ) = 30 := by simp
    rw [hc, hl] at h2
    show (pre_state _ 1).hourly_count < 200
    omega
  have hd : (pre_state (record_seq examplePen10 (List.replicate 30 (0 : ℚ))) 1).daily_count
      < defaultRLConfig.rate_limit_per_day := by
    have h1 := (pre_state_daily_le (record_seq examplePen10 (List.replicate 30 (0 : ℚ))) 1
      hbounds.2.1).2
    have h2 := hbounds.2.2
    have hc : examplePen10.daily_count = 0 := rfl
    have hl : ((List.replicate 30 (0 : ℚ)).length : ℤ) = 30 := by simp
    rw [hc, hl] at h2
    show (pre_state _ 1).daily_count < 1000
    omega
  have hcnt : count_requests_in_window
      (pre_state (record_seq examplePen10 (List.replicate 30 (0 : ℚ))) 1).timestamps 60 1
      = 30 := by
    rw [pre_state_timestamps, count_requests_prune _ _ _ _ le_rfl (by norm_num),
      record_seq_count 1 (List.replicate 30 (0 : ℚ)) examplePen10 hts]
    simp [count_requests_in_window, examplePen10, freshState]
  have hge : BURST_DELAY_THRESHOLD * (defaultRLConfig.rate_limit_per_minute : ℚ)
      ≤ (count_requests_in_window
        (pre_state (record_seq examplePen10 (List.replicate 30 (0 : ℚ))) 1).timestamps 60 1 : ℚ) := by
    rw [hcnt]
    norm_num [BURST_DELAY_THRESHOLD, defaultRLConfig]
  have hv := max_load_ge_of_count defaultRLConfig
    (record_seq examplePen10 (List.replicate 30 (0 : ℚ))) 1 (by decide) hge
  have hres := check_rate_limit_violation defaultRLConfig
    (record_seq examplePen10 (List.replicate 30 (0 : ℚ))) 1 hh hd hv
  refine ⟨rfl, ?_, by decide⟩
  rw [hres]
  have hpen : (pre_state (record_seq examplePen10 (List.replicate 30 (0 : ℚ))) 1).penalty_level
      = 10 := by
    rw [pre_state_penalty, record_seq_penalty]
    rfl
  dsimp only
  rw [hpen]
  decide
